import Mathlib

/-!
Verification of the jstorrent I/O daemon (native-host/io-daemon) against its
specification.  The Rust sources are shallowly embedded: byte strings are
`List Nat` (each element one byte), multi-byte integers are decoded exactly as
the `from_le_bytes` calls in the source do, fallible operations return
`Except`/`Option`, and the per-session mutable state (the socket registry) is
passed explicitly.  Asynchronous side effects (spawned tasks, channel sends,
socket system calls) are recorded as explicit `Effect` values so that theorems
can talk about what the dispatch loop does without modelling the scheduler.
-/

namespace JSTorrent

/-- Decode a little-endian u16 from two bytes, as `u16::from_le_bytes` does. -/
def u16le (b0 b1 : Nat) : Nat := b0 + 256 * b1

/-- Decode a little-endian u32 from four bytes, as `u32::from_le_bytes` does. -/
def u32le (b0 b1 b2 b3 : Nat) : Nat :=
  b0 + 256 * b1 + 65536 * b2 + 16777216 * b3

/-- Encode a u32 as four little-endian bytes, as `u32::to_le_bytes` does. -/
def le32 (n : Nat) : List Nat :=
  [n % 256, n / 256 % 256, n / 65536 % 256, n / 16777216 % 256]

/-- Encode a u16 as two little-endian bytes, as `u16::to_le_bytes` does. -/
def le16 (n : Nat) : List Nat := [n % 256, n / 256 % 256]

/-- UTF-8 bytes of a string, as `str::as_bytes` yields them. -/
def strBytes (s : String) : List Nat := s.toUTF8.toList.map UInt8.toNat

-- Opcodes from ws.rs.
def OP_CLIENT_HELLO : Nat := 0x01
def OP_SERVER_HELLO : Nat := 0x02
def OP_AUTH : Nat := 0x03
def OP_AUTH_RESULT : Nat := 0x04
def OP_ERROR : Nat := 0x7F
def OP_TCP_CONNECT : Nat := 0x10
def OP_TCP_CONNECTED : Nat := 0x11
def OP_TCP_SEND : Nat := 0x12
def OP_TCP_RECV : Nat := 0x13
def OP_TCP_CLOSE : Nat := 0x14
def OP_TCP_LISTEN : Nat := 0x15
def OP_TCP_LISTEN_RESULT : Nat := 0x16
def OP_TCP_ACCEPT : Nat := 0x17
def OP_TCP_STOP_LISTEN : Nat := 0x18
def OP_UDP_BIND : Nat := 0x20
def OP_UDP_BOUND : Nat := 0x21
def OP_UDP_SEND : Nat := 0x22
def OP_UDP_RECV : Nat := 0x23
def OP_UDP_CLOSE : Nat := 0x24
def OP_UDP_JOIN_MULTICAST : Nat := 0x25
def OP_UDP_LEAVE_MULTICAST : Nat := 0x26

/-- An outbound WebSocket frame as enqueued by `send_msg` in ws.rs: the
envelope fields that vary (opcode and request id) plus the payload bytes.
Version is always 1 and flags always 0 on outbound frames. -/
structure Frame where
  op : Nat
  reqId : Nat
  payload : List Nat
deriving DecidableEq

/-! ## Authentication state machine (ws.rs, unauthenticated branch) -/

/-- What the receive loop does next after handling a frame while not yet
authenticated: keep looping unauthenticated, set `authenticated = true`, or
`break` (terminate the session). -/
inductive AuthStep
  | stayUnauthed
  | becomeAuthed
  | terminate
deriving DecidableEq

/-- Token extraction from an AUTH payload after the `authType` byte, from
ws.rs.  `authType = 0`: the token is everything up to the first null byte
(`data.iter().position(|&b| b == 0)`, defaulting to the whole slice).
`authType = 1`: the token is the entire remaining payload.  Any other value
is rejected (`none`).  Tokens are kept as byte lists; the source converts
them with `String::from_utf8_lossy`, which is the identity on the
well-formed UTF-8 tokens the daemon generates. -/
def extract_token (authType : Nat) (data : List Nat) : Option (List Nat) :=
  if authType = 0 then some (data.takeWhile (fun b => b ≠ 0))
  else if authType = 1 then some data
  else none

/-- One step of the unauthenticated dispatch in `handle_socket` (ws.rs):
given the process token, the envelope opcode and request id, and the frame
payload, produce the frames enqueued on the outbound channel and what the
session does next. -/
def handle_unauthed (stateToken : List Nat) (msgType reqId : Nat)
    (payload : List Nat) : List Frame × AuthStep :=
  if msgType = OP_CLIENT_HELLO then
    ([⟨OP_SERVER_HELLO, reqId, []⟩], AuthStep.stayUnauthed)
  else if msgType = OP_AUTH then
    match payload with
    | [] => ([⟨OP_ERROR, reqId, strBytes "Empty auth payload"⟩], AuthStep.terminate)
    | authType :: data =>
      match extract_token authType data with
      | none => ([⟨OP_ERROR, reqId, strBytes "Unknown auth type"⟩], AuthStep.terminate)
      | some token =>
        if token = stateToken then
          ([⟨OP_AUTH_RESULT, reqId, [0]⟩], AuthStep.becomeAuthed)
        else
          ([⟨OP_AUTH_RESULT, reqId, 1 :: strBytes "Invalid token"⟩], AuthStep.terminate)
  else
    ([⟨OP_ERROR, reqId, strBytes "Authentication required"⟩], AuthStep.terminate)

/-! ## Socket registry and authenticated dispatch (ws.rs) -/

/-- The per-session `SocketManager` from ws.rs.  The four hash maps are
modelled by their key sets (duplicate-free id lists); the values — write
channels, abort handles, socket handles, join handles — live outside the
pure model and are represented by the recorded `Effect`s instead. -/
structure SocketManager where
  tcp_sockets : List Nat
  pending_connects : List Nat
  udp_sockets : List Nat
  tcp_servers : List Nat
  next_socket_id : Nat
deriving DecidableEq

/-- HashMap::remove on a key-set model. -/
def removeId (l : List Nat) (id : Nat) : List Nat := l.filter (fun x => x ≠ id)

/-- HashMap::insert on a key-set model (replaces any previous entry). -/
def insertId (l : List Nat) (id : Nat) : List Nat := id :: removeId l id

/-- Imperative side effects performed (or tasks spawned) by the authenticated
dispatch arms in `handle_socket`; recorded rather than executed. -/
inductive Effect
  | spawnTcpConnect (socketId port reqId : Nat) (hostname : List Nat)
  | tcpEnqueue (socketId : Nat) (data : List Nat)
  | abortPendingConnect (socketId : Nat)
  | spawnTcpListen (serverId port reqId : Nat) (bindAddr : List Nat)
  | abortTcpServer (serverId : Nat)
  | spawnUdpBind (socketId port reqId : Nat) (bindAddr : List Nat)
  | udpSendTo (socketId destPort : Nat) (destAddr data : List Nat)
  | joinMulticastAttempt (socketId : Nat) (groupAddr : List Nat)
  | leaveMulticastAttempt (socketId : Nat) (groupAddr : List Nat)
deriving DecidableEq

/-- Result of one authenticated dispatch step: frames enqueued outbound, the
updated registry, the side effects performed, and whether the receive loop
breaks (terminating the session). -/
structure AuthedResult where
  frames : List Frame
  mgr : SocketManager
  effects : List Effect
  terminate : Bool
deriving DecidableEq

/-- The no-op result: nothing sent, registry untouched, session stays open. -/
def neutralResult (mgr : SocketManager) : AuthedResult :=
  ⟨[], mgr, [], false⟩

/-- The `addr_len` field of a UDP_SEND payload: little-endian u16 at bytes
6..8 (ws.rs). -/
def udpSendAddrLen (payload : List Nat) : Nat :=
  u16le (payload.getD 6 0) (payload.getD 7 0)

/-- Decode the little-endian u32 socket id at bytes 0..4 of a payload. -/
def payloadSocketId (payload : List Nat) : Nat :=
  u32le (payload.getD 0 0) (payload.getD 1 0) (payload.getD 2 0) (payload.getD 3 0)

/-- Decode the little-endian u16 port at bytes 4..6 of a payload. -/
def payloadPort (payload : List Nat) : Nat :=
  u16le (payload.getD 4 0) (payload.getD 5 0)

/-- One step of the authenticated dispatch in `handle_socket` (ws.rs): the
`match env.msg_type` over the I/O opcodes.  Only the synchronous part of
each arm is modelled; work done later inside a spawned task (the connect
attempt, the bind, the accept loop) is recorded as a spawn `Effect`.
For UDP multicast join/leave the model records the attempt whenever the id
names a UDP socket; the source additionally requires the group bytes to
parse as an IPv4 address before issuing the setsockopt (best effort, errors
logged and ignored), which is outside this model. -/
def handle_authed (mgr : SocketManager) (msgType reqId : Nat)
    (payload : List Nat) : AuthedResult :=
  if msgType = OP_TCP_CONNECT then
    -- `if payload.len() < 6 { continue; }`
    if payload.length < 6 then neutralResult mgr
    else
      let socketId := payloadSocketId payload
      { frames := []
        mgr := { mgr with pending_connects := insertId mgr.pending_connects socketId }
        effects := [Effect.spawnTcpConnect socketId (payloadPort payload) reqId (payload.drop 6)]
        terminate := false }
  else if msgType = OP_TCP_SEND then
    if 4 ≤ payload.length then
      let socketId := payloadSocketId payload
      if mgr.tcp_sockets.contains socketId then
        ⟨[], mgr, [Effect.tcpEnqueue socketId (payload.drop 4)], false⟩
      else neutralResult mgr
    else neutralResult mgr
  else if msgType = OP_TCP_CLOSE then
    if 4 ≤ payload.length then
      let socketId := payloadSocketId payload
      { frames := []
        mgr := { mgr with
                  tcp_sockets := removeId mgr.tcp_sockets socketId
                  pending_connects := removeId mgr.pending_connects socketId }
        effects := if mgr.pending_connects.contains socketId then
                     [Effect.abortPendingConnect socketId]
                   else []
        terminate := false }
    else neutralResult mgr
  else if msgType = OP_TCP_LISTEN then
    if 6 ≤ payload.length then
      ⟨[], mgr,
        [Effect.spawnTcpListen (payloadSocketId payload) (payloadPort payload) reqId
          (payload.drop 6)], false⟩
    else neutralResult mgr
  else if msgType = OP_TCP_STOP_LISTEN then
    if 4 ≤ payload.length then
      let serverId := payloadSocketId payload
      { frames := []
        mgr := { mgr with tcp_servers := removeId mgr.tcp_servers serverId }
        effects := if mgr.tcp_servers.contains serverId then
                     [Effect.abortTcpServer serverId]
                   else []
        terminate := false }
    else neutralResult mgr
  else if msgType = OP_UDP_BIND then
    if 6 ≤ payload.length then
      ⟨[], mgr,
        [Effect.spawnUdpBind (payloadSocketId payload) (payloadPort payload) reqId
          (payload.drop 6)], false⟩
    else neutralResult mgr
  else if msgType = OP_UDP_SEND then
    if 8 ≤ payload.length then
      if 8 + udpSendAddrLen payload ≤ payload.length then
        let socketId := payloadSocketId payload
        if mgr.udp_sockets.contains socketId then
          ⟨[], mgr,
            [Effect.udpSendTo socketId (payloadPort payload)
              ((payload.drop 8).take (udpSendAddrLen payload))
              (payload.drop (8 + udpSendAddrLen payload))], false⟩
        else neutralResult mgr
      else neutralResult mgr
    else neutralResult mgr
  else if msgType = OP_UDP_CLOSE then
    if 4 ≤ payload.length then
      { frames := []
        mgr := { mgr with udp_sockets := removeId mgr.udp_sockets (payloadSocketId payload) }
        effects := []
        terminate := false }
    else neutralResult mgr
  else if msgType = OP_UDP_JOIN_MULTICAST then
    if 4 ≤ payload.length then
      let socketId := payloadSocketId payload
      if mgr.udp_sockets.contains socketId then
        ⟨[], mgr, [Effect.joinMulticastAttempt socketId (payload.drop 4)], false⟩
      else neutralResult mgr
    else neutralResult mgr
  else if msgType = OP_UDP_LEAVE_MULTICAST then
    if 4 ≤ payload.length then
      let socketId := payloadSocketId payload
      if mgr.udp_sockets.contains socketId then
        ⟨[], mgr, [Effect.leaveMulticastAttempt socketId (payload.drop 4)], false⟩
      else neutralResult mgr
    else neutralResult mgr
  else
    -- `_ => { send_error(&tx, env.request_id, "Unknown opcode").await; }`
    -- Note: no `break` here, so the session stays open.
    ⟨[⟨OP_ERROR, reqId, strBytes "Unknown opcode"⟩], mgr, [], false⟩

/-- The opcodes with a dedicated arm in the authenticated `match env.msg_type`
dispatch of ws.rs; every other opcode falls into the catch-all arm. -/
def handledAuthedOps : List Nat :=
  [OP_TCP_CONNECT, OP_TCP_SEND, OP_TCP_CLOSE, OP_TCP_LISTEN, OP_TCP_STOP_LISTEN,
   OP_UDP_BIND, OP_UDP_SEND, OP_UDP_CLOSE, OP_UDP_JOIN_MULTICAST, OP_UDP_LEAVE_MULTICAST]

/-! ## Per-socket TCP read task (ws.rs, outbound and accepted sockets) -/

/-- One outcome of `read_half.read(&mut buf)` in the per-socket read task:
either a chunk of bytes (`Ok(n)`, the chunk empty on `Ok(0)` = EOF) or a
read error (`Err(_)`). -/
inductive ReadEvent
  | chunk (bytes : List Nat)
  | readError
deriving DecidableEq

/-- The TCP_RECV event frame built by the read task: request id 0, payload
`socketId(4) data`. -/
def tcp_recv_frame (socketId : Nat) (bytes : List Nat) : Frame :=
  ⟨OP_TCP_RECV, 0, le32 socketId ++ bytes⟩

/-- The TCP_CLOSE event frame built after the read loop exits: request id 0,
payload `socketId(4) reason(1) errno(4)`.  The source pushes the literal
byte 0 for reason and `0u32` for errno on every exit path. -/
def tcp_close_frame (socketId : Nat) : Frame :=
  ⟨OP_TCP_CLOSE, 0, le32 socketId ++ 0 :: le32 0⟩

/-- The per-socket read task from `handle_socket` (ws.rs): loop on reads,
emitting a TCP_RECV per nonempty chunk; break on EOF (`Ok(0)`) or error
(`Err(_)`); after the loop emit one TCP_CLOSE.  The same code appears twice
in the source, once for outbound-connected sockets and once for accepted
sockets; both are this function.  The input list is the sequence of read
outcomes the socket delivers; an exhausted list is EOF. -/
def tcp_read_loop (socketId : Nat) (events : List ReadEvent) : List Frame :=
  match events with
  | [] => [tcp_close_frame socketId]
  | ReadEvent.chunk b :: rest =>
      if b.isEmpty then [tcp_close_frame socketId]
      else tcp_recv_frame socketId b :: tcp_read_loop socketId rest
  | ReadEvent.readError :: _ => [tcp_close_frame socketId]

/-! ## Session cleanup on WebSocket disconnect (ws.rs, end of handle_socket) -/

/-- Which tasks the end-of-session block of `handle_socket` aborts, in order:
it iterates `manager.tcp_servers` calling `handle.abort()` on each, touches
nothing else in the registry (the comment says TCP and UDP sockets are
cleaned up when dropped), and finally calls `send_task.abort()`. -/
structure CleanupActions where
  abortedServers : List Nat
  abortedPending : List Nat
  senderAbortedLast : Bool
deriving DecidableEq

/-- The cleanup block at the end of `handle_socket` (ws.rs): abort every
tcp_servers task, abort no pending_connects task, then abort the sender. -/
def disconnect_cleanup (mgr : SocketManager) : CleanupActions :=
  { abortedServers := mgr.tcp_servers
    abortedPending := []
    senderAbortedLast := true }

/-! ## Roots and path authorization (files.rs, validate_path) -/

/-- A `DownloadRoot` from the shared crate (system-bridge/common). -/
structure DownloadRoot where
  key : String
  path : String
  display_name : String
  removable : Bool
  last_stat_ok : Bool
  last_checked : Nat
deriving DecidableEq

/-- Substring search on character lists, as `str::contains` with a literal
pattern performs it: true iff the pattern occurs contiguously somewhere. -/
def containsSubstr (pat : List Char) : List Char → Bool
  | [] => pat.isPrefixOf ([] : List Char)
  | c :: rest => pat.isPrefixOf (c :: rest) || containsSubstr pat rest

/-- The traversal check of `validate_path`: `path.contains("..")` — a plain
substring test over the whole path string. -/
def containsDotDot (path : String) : Bool :=
  containsSubstr ['.', '.'] path.toList

/-- Character-wise `path.replace('\\', "/")`. -/
def replaceBackslashes (path : String) : String :=
  String.mk (path.toList.map (fun c => if c = '\\' then '/' else c))

/-- The cleaned path of `validate_path`: backslashes become forward slashes,
then leading slashes are stripped (`trim_start_matches('/')`). -/
def cleanedPath (path : String) : String :=
  String.mk ((replaceBackslashes path).toList.dropWhile (fun c => c = '/'))

/-- `PathBuf::join` for the case produced by `validate_path`: the right side
is relative (leading slashes were stripped), so join pushes a separator and
the component text. -/
def pathJoin (root rel : String) : String := root ++ "/" ++ rel

/-- Outcome of `validate_path`: the joined absolute path, or an HTTP status
plus message. -/
inductive PathResult
  | ok (full : String)
  | err (status : Nat) (msg : String)
deriving DecidableEq

/-- `validate_path` from files.rs: look the root up by exact key
(`403 Invalid root key` when absent), reject any path containing `..`
anywhere (`400 Invalid path`), else normalize separators, strip leading
slashes and join onto the root path. -/
def validate_path (roots : List DownloadRoot) (root_key : String) (path : String) :
    PathResult :=
  match roots.find? (fun r => r.key == root_key) with
  | none => PathResult.err 403 "Invalid root key"
  | some root =>
    if containsDotDot path then PathResult.err 400 "Invalid path"
    else PathResult.ok (pathJoin root.path (cleanedPath path))

/-- Path-separator test used to split a path into components (the spec notion of a `..` component; both separator styles accepted before
normalization). -/
def isPathSep (c : Char) : Bool := c = '/' || c = '\\'

/-- Split a character list at separators, keeping (possibly empty) chunks. -/
def splitCharsAux (l : List Char) (acc : List Char) : List (List Char) :=
  match l with
  | [] => [acc.reverse]
  | c :: rest =>
    if isPathSep c then acc.reverse :: splitCharsAux rest []
    else splitCharsAux rest (c :: acc)

/-- The components of a path string, split at `/` and `\`. -/
def pathComponents (p : String) : List (List Char) := splitCharsAux p.toList []

/-- Modelled from the spec: a path "contains `..` as a component" when one of
its separator-delimited components is exactly `..`.  This is the predicate
the claim uses; the source performs the cruder substring test
`containsDotDot` instead. -/
def hasDotDotComponent (p : String) : Bool :=
  (pathComponents p).contains ['.', '.']

/-! ## Range write with hash verification (files.rs, write_file_v2) -/

/-- The effect on the target file of `open(write, create, no truncate)`,
`seek(SeekFrom::Start(offset))`, `write_all(&body)`: bytes `[offset,
offset+|body|)` become `body`; a seek past EOF zero-fills the gap; bytes
after the written range are preserved. -/
def overwrite_range (file : List Nat) (offset : Nat) (body : List Nat) : List Nat :=
  let padded := file ++ List.replicate (offset - file.length) 0
  padded.take offset ++ (body ++ padded.drop (offset + body.length))

/-- `write_file_v2` from files.rs, on the path the claim fixes (root key
authorized, parent directories creatable, no I/O failure): seek and write
the body FIRST, then, when an expected SHA-1 header is present, compare it
against the lowercase hex digest of the body and answer 409 on mismatch,
200 otherwise.  The digest computation itself is the external `sha1` crate,
abstracted as the `sha1hex` argument; the comparison `hex::encode(...) ==
expected` is `sha1hex body = expected`.  Returns the HTTP status and the
resulting file bytes. -/
def write_file_v2 (sha1hex : List Nat → String) (file : List Nat) (offset : Nat)
    (body : List Nat) (expectedSha1 : Option String) : Nat × List Nat :=
  let newFile := overwrite_range file offset body
  match expectedSha1 with
  | none => (200, newFile)
  | some expected =>
    if sha1hex body = expected then (200, newFile) else (409, newFile)

/-! ## Streaming file hashing (hashing.rs) -/

/-- The read loop shared verbatim by `hash_sha1_file` and `hash_sha256_file`
(hashing.rs): while `remaining > 0`, read up to `min(8192, remaining)`
bytes, stop on `n == 0` (EOF), feed the chunk to the hasher and subtract
`n`.  The file argument is the byte stream after the seek; the result is
the concatenation of all bytes fed to the hasher. -/
def hash_read_loop (file : List Nat) (remaining : Nat) : List Nat :=
  if remaining = 0 then []
  else if min (min 8192 remaining) file.length = 0 then []
  else
    file.take (min (min 8192 remaining) file.length) ++
      hash_read_loop (file.drop (min (min 8192 remaining) file.length))
        (remaining - min (min 8192 remaining) file.length)
termination_by file.length
decreasing_by simp; omega

/-- `u64::MAX`, the `remaining` value used when no length parameter is
given. -/
def u64MAX : Nat := 18446744073709551615

/-- `hash_sha1_file` from hashing.rs on the authorized, readable path: seek
to the offset (0 when absent), run the 8 KiB read loop with `remaining =
length.unwrap_or(u64::MAX)`, and return the hex digest of the bytes
consumed.  The SHA-1 computation is the external `sha1` crate plus
`hex::encode`, abstracted as `sha1hexDigest`. -/
def hash_sha1_file (sha1hexDigest : List Nat → String) (file : List Nat)
    (offset : Option Nat) (length : Option Nat) : String :=
  let afterSeek := file.drop (offset.getD 0)
  sha1hexDigest (hash_read_loop afterSeek (length.getD u64MAX))

/-- `hash_sha256_file` from hashing.rs; identical to `hash_sha1_file` except
for the digest used. -/
def hash_sha256_file (sha256hexDigest : List Nat → String) (file : List Nat)
    (offset : Option Nat) (length : Option Nat) : String :=
  let afterSeek := file.drop (offset.getD 0)
  sha256hexDigest (hash_read_loop afterSeek (length.getD u64MAX))

/-! ## Config reload (config.rs) -/

/-- `BrowserInfo` from the shared crate. -/
structure BrowserInfo where
  name : String
  binary : String
  extension_id : Option String
deriving DecidableEq

/-- `ProfileEntry` from the shared crate. -/
structure ProfileEntry where
  extension_id : Option String
  install_id : Option String
  pid : Nat
  port : Nat
  token : String
  started : Nat
  last_used : Nat
  browser : BrowserInfo
  download_roots : List DownloadRoot
deriving DecidableEq

/-- `UnifiedRpcInfo`, the top-level shape of the discovery file. -/
structure UnifiedRpcInfo where
  version : Nat
  profiles : List ProfileEntry
deriving DecidableEq

/-- The process state of the daemon (`AppState` in main.rs) as far as the config
endpoint touches it. -/
structure AppStateModel where
  token : String
  install_id : String
  extension_id : Option String
  download_roots : List DownloadRoot
deriving DecidableEq

/-- `load_config` from config.rs: read and parse the discovery file (the
`disk` argument is its parsed contents, `none` when the file is missing or
unreadable), find the first profile whose `install_id` equals that of the daemon
(`p.install_id.as_deref() == Some(install_id)`), and return the
`download_roots` of that profile; every failure is an error. -/
def load_config (disk : Option UnifiedRpcInfo) (install_id : String) :
    Except String (List DownloadRoot) :=
  match disk with
  | none => Except.error "rpc-info.json not found"
  | some info =>
    match info.profiles.find? (fun p => p.install_id == some install_id) with
    | some p => Except.ok p.download_roots
    | none => Except.error "Profile not found"

/-- `refresh_handler` from config.rs (`POST /api/read-rpc-info-from-disk`):
call `load_config` with the install id of the daemon; on error answer 500 and
leave the state alone; on success take the roots write lock and overwrite
`download_roots` with the freshly loaded list, answering 200.  No other
state field is written. -/
def refresh_handler (disk : Option UnifiedRpcInfo) (st : AppStateModel) :
    Nat × AppStateModel :=
  match load_config disk st.install_id with
  | Except.error _ => (500, st)
  | Except.ok roots => (200, { st with download_roots := roots })

/-! ## Concrete fixtures used by witnesses and counterexamples -/

/-- A fresh session registry, as built at the top of `handle_socket`. -/
def mgrEmpty : SocketManager := ⟨[], [], [], [], 0x10000⟩

/-- A registry with one pending connect (id 5) and one listener (id 7). -/
def mgrPending : SocketManager := ⟨[], [5], [], [7], 0x10000⟩

/-- A one-entry root table. -/
def rootsSample : List DownloadRoot := [⟨"k", "/dl", "Downloads", false, true, 0⟩]

/-- A browser entry for the discovery-file fixtures. -/
def browserSample : BrowserInfo := ⟨"chrome", "/usr/bin/chrome", none⟩

/-- The root carried by the fixture profile. -/
def rootNew : DownloadRoot := ⟨"rk", "/data", "Data", false, true, 0⟩

/-- A discovery-file profile whose install id is `iid` and whose extension id
differs from the one the daemon currently holds. -/
def profSample : ProfileEntry :=
  ⟨some "new-ext", some "iid", 42, 7000, "ptok", 0, 0, browserSample, [rootNew]⟩

/-- A parsed discovery file holding just `profSample`. -/
def diskSample : Option UnifiedRpcInfo := some ⟨2, [profSample]⟩

/-- A daemon state started with install id `iid` and an older extension id. -/
def stSample : AppStateModel := ⟨"tok", "iid", some "old-ext", []⟩

/-! ## Theorems -/

/-- Claim C10: in an unauthenticated session, an AUTH frame whose payload is
empty yields exactly one ERROR frame carrying "Empty auth payload" and the
session terminates; the reply opcode is ERROR, not AUTH_RESULT, so the frame
is neither dropped nor reported as an authentication failure. -/
theorem claim_C10_empty_auth_payload (stateToken : List Nat) (reqId : Nat) :
    handle_unauthed stateToken OP_AUTH reqId [] =
      ([⟨OP_ERROR, reqId, strBytes "Empty auth payload"⟩], AuthStep.terminate) ∧
    OP_ERROR ≠ OP_AUTH_RESULT := by
  exact ⟨rfl, by decide⟩

/-- Claim C2: the unauthenticated state machine.  An AUTH frame whose
extracted token equals the process token answers AUTH_RESULT `[0]` and the
session becomes authenticated; an AUTH frame with any other extracted token
answers AUTH_RESULT `[1] ++ "Invalid token"` and the session terminates; any
opcode other than CLIENT_HELLO and AUTH answers ERROR "Authentication
required" and the session terminates. -/
theorem claim_C2_auth_state_machine (stateToken : List Nat)
    (msgType reqId authType : Nat) (data token payload : List Nat) :
    (extract_token authType data = some token → token = stateToken →
      handle_unauthed stateToken OP_AUTH reqId (authType :: data) =
        ([⟨OP_AUTH_RESULT, reqId, [0]⟩], AuthStep.becomeAuthed)) ∧
    (extract_token authType data = some token → token ≠ stateToken →
      handle_unauthed stateToken OP_AUTH reqId (authType :: data) =
        ([⟨OP_AUTH_RESULT, reqId, 1 :: strBytes "Invalid token"⟩], AuthStep.terminate)) ∧
    (msgType ≠ OP_CLIENT_HELLO → msgType ≠ OP_AUTH →
      handle_unauthed stateToken msgType reqId payload =
        ([⟨OP_ERROR, reqId, strBytes "Authentication required"⟩], AuthStep.terminate)) := by
  refine ⟨?_, ?_, ?_⟩
  · intro hext heq
    simp [handle_unauthed, OP_AUTH, OP_CLIENT_HELLO, hext, heq]
  · intro hext hne
    simp [handle_unauthed, OP_AUTH, OP_CLIENT_HELLO, hext, hne]
  · intro h1 h2
    simp [handle_unauthed, h1, h2]

/-- Claim C2 witness: concrete instances of all three arms, with the process
token being the bytes `[9, 9, 9]`. -/
theorem claim_C2_witness :
    handle_unauthed [9, 9, 9] OP_AUTH 7 (1 :: [9, 9, 9]) =
      ([⟨OP_AUTH_RESULT, 7, [0]⟩], AuthStep.becomeAuthed) ∧
    handle_unauthed [9, 9, 9] OP_AUTH 8 (1 :: [4, 4]) =
      ([⟨OP_AUTH_RESULT, 8, 1 :: strBytes "Invalid token"⟩], AuthStep.terminate) ∧
    handle_unauthed [9, 9, 9] OP_TCP_CONNECT 9 [] =
      ([⟨OP_ERROR, 9, strBytes "Authentication required"⟩], AuthStep.terminate) := by
  refine ⟨?_, ?_, ?_⟩
  · exact (claim_C2_auth_state_machine [9, 9, 9] OP_AUTH 7 1 [9, 9, 9] [9, 9, 9] []).1
      rfl rfl
  · exact (claim_C2_auth_state_machine [9, 9, 9] OP_AUTH 8 1 [4, 4] [4, 4] []).2.1
      rfl (by decide)
  · exact (claim_C2_auth_state_machine [9, 9, 9] OP_TCP_CONNECT 9 0 [] [] []).2.2
      (by decide) (by decide)

/-- Claim C6 counterexample: with an authenticated session, the opcode 0x30
has no dispatch arm; the daemon answers ERROR "Unknown opcode" but the
dispatch result does NOT terminate the session (the catch-all arm of the
authenticated match has no `break`), contradicting the claim that the
session is terminated in any authentication state. -/
theorem claim_C6_counterexample :
    handle_authed mgrEmpty 0x30 5 [] =
      ⟨[⟨OP_ERROR, 5, strBytes "Unknown opcode"⟩], mgrEmpty, [], false⟩ ∧
    (handle_authed mgrEmpty 0x30 5 []).terminate = false := by
  exact ⟨rfl, rfl⟩

/-- Claim C6 (amended): an unhandled opcode always draws an ERROR frame; in
the unauthenticated state the session then terminates, but in the Authed
state the session stays open (and the registry is untouched). -/
theorem claim_C6_amended :
    (∀ (mgr : SocketManager) (msgType reqId : Nat) (payload : List Nat),
      msgType ∉ handledAuthedOps →
      handle_authed mgr msgType reqId payload =
        ⟨[⟨OP_ERROR, reqId, strBytes "Unknown opcode"⟩], mgr, [], false⟩) ∧
    (∀ (stateToken : List Nat) (msgType reqId : Nat) (payload : List Nat),
      msgType ≠ OP_CLIENT_HELLO → msgType ≠ OP_AUTH →
      handle_unauthed stateToken msgType reqId payload =
        ([⟨OP_ERROR, reqId, strBytes "Authentication required"⟩], AuthStep.terminate)) := by
  constructor
  · intro mgr msgType reqId payload h
    simp only [handledAuthedOps, List.mem_cons, List.not_mem_nil, or_false, not_or] at h
    obtain ⟨h1, h2, h3, h4, h5, h6, h7, h8, h9, h10⟩ := h
    simp [handle_authed, h1, h2, h3, h4, h5, h6, h7, h8, h9, h10]
  · intro stateToken msgType reqId payload h1 h2
    simp [handle_unauthed, h1, h2]

/-- Claim C6 witness: the amended behavior at the concrete opcode 0x31. -/
theorem claim_C6_witness :
    handle_authed mgrEmpty 0x31 6 [1, 2] =
      ⟨[⟨OP_ERROR, 6, strBytes "Unknown opcode"⟩], mgrEmpty, [], false⟩ ∧
    handle_unauthed [] 0x31 6 [] =
      ([⟨OP_ERROR, 6, strBytes "Authentication required"⟩], AuthStep.terminate) := by
  exact ⟨claim_C6_amended.1 mgrEmpty 0x31 6 [1, 2] (by decide),
         claim_C6_amended.2 [] 0x31 6 [] (by decide) (by decide)⟩

/-- Claim C9: in the Authed state, a frame whose payload is shorter than the
fixed minimum of its opcode (6 bytes for TCP_CONNECT / TCP_LISTEN /
UDP_BIND; 4 bytes for TCP_SEND / TCP_CLOSE / TCP_STOP_LISTEN / UDP_CLOSE /
UDP_JOIN_MULTICAST / UDP_LEAVE_MULTICAST; 8 bytes, or `8 + addrLen` bytes,
for UDP_SEND) is ignored totally: no frame is emitted, the registry is
unchanged, no effect is performed and the session stays open.  The dispatch
function is total, so no input panics. -/
theorem claim_C9_short_payload_ignored (mgr : SocketManager) (msgType reqId : Nat)
    (payload : List Nat)
    (h : (msgType ∈ [OP_TCP_CONNECT, OP_TCP_LISTEN, OP_UDP_BIND] ∧ payload.length < 6) ∨
         (msgType ∈ [OP_TCP_SEND, OP_TCP_CLOSE, OP_TCP_STOP_LISTEN, OP_UDP_CLOSE,
                     OP_UDP_JOIN_MULTICAST, OP_UDP_LEAVE_MULTICAST] ∧ payload.length < 4) ∨
         (msgType = OP_UDP_SEND ∧
           (payload.length < 8 ∨ payload.length < 8 + udpSendAddrLen payload))) :
    handle_authed mgr msgType reqId payload = neutralResult mgr := by
  rcases h with ⟨hm, hlen⟩ | ⟨hm, hlen⟩ | ⟨rfl, hor⟩
  · simp only [List.mem_cons, List.not_mem_nil, or_false] at hm
    rcases hm with rfl | rfl | rfl
    · simp [handle_authed, hlen]
    · simp [handle_authed, OP_TCP_LISTEN, OP_TCP_CONNECT, OP_TCP_SEND, OP_TCP_CLOSE,
        show ¬ (6 ≤ payload.length) from by omega]
    · simp [handle_authed, OP_UDP_BIND, OP_TCP_CONNECT, OP_TCP_SEND, OP_TCP_CLOSE,
        OP_TCP_LISTEN, OP_TCP_STOP_LISTEN,
        show ¬ (6 ≤ payload.length) from by omega]
  · simp only [List.mem_cons, List.not_mem_nil, or_false] at hm
    have h4 : ¬ (4 ≤ payload.length) := by omega
    rcases hm with rfl | rfl | rfl | rfl | rfl | rfl
    · simp [handle_authed, OP_TCP_SEND, OP_TCP_CONNECT, h4,
        show ¬ (payload.length < 6) → False from fun hc => hc (by omega)]
    · simp [handle_authed, OP_TCP_CLOSE, OP_TCP_CONNECT, OP_TCP_SEND, h4]
    · simp [handle_authed, OP_TCP_STOP_LISTEN, OP_TCP_CONNECT, OP_TCP_SEND, OP_TCP_CLOSE,
        OP_TCP_LISTEN, h4]
    · simp [handle_authed, OP_UDP_CLOSE, OP_TCP_CONNECT, OP_TCP_SEND, OP_TCP_CLOSE,
        OP_TCP_LISTEN, OP_TCP_STOP_LISTEN, OP_UDP_BIND, OP_UDP_SEND, h4]
    · simp [handle_authed, OP_UDP_JOIN_MULTICAST, OP_TCP_CONNECT, OP_TCP_SEND,
        OP_TCP_CLOSE, OP_TCP_LISTEN, OP_TCP_STOP_LISTEN, OP_UDP_BIND, OP_UDP_SEND,
        OP_UDP_CLOSE, h4]
    · simp [handle_authed, OP_UDP_LEAVE_MULTICAST, OP_TCP_CONNECT, OP_TCP_SEND,
        OP_TCP_CLOSE, OP_TCP_LISTEN, OP_TCP_STOP_LISTEN, OP_UDP_BIND, OP_UDP_SEND,
        OP_UDP_CLOSE, OP_UDP_JOIN_MULTICAST, h4]
  · rcases hor with h8 | haddr
    · simp [handle_authed, OP_UDP_SEND, OP_TCP_CONNECT, OP_TCP_SEND, OP_TCP_CLOSE,
        OP_TCP_LISTEN, OP_TCP_STOP_LISTEN, OP_UDP_BIND,
        show ¬ (8 ≤ payload.length) from by omega]
    · by_cases h8 : 8 ≤ payload.length
      · simp [handle_authed, OP_UDP_SEND, OP_TCP_CONNECT, OP_TCP_SEND, OP_TCP_CLOSE,
          OP_TCP_LISTEN, OP_TCP_STOP_LISTEN, OP_UDP_BIND, h8,
          show ¬ (8 + udpSendAddrLen payload ≤ payload.length) from by omega]
      · simp [handle_authed, OP_UDP_SEND, OP_TCP_CONNECT, OP_TCP_SEND, OP_TCP_CLOSE,
          OP_TCP_LISTEN, OP_TCP_STOP_LISTEN, OP_UDP_BIND, h8]

/-- Claim C9 witness: a 3-byte TCP_CONNECT payload on a fresh session. -/
theorem claim_C9_witness :
    handle_authed mgrEmpty OP_TCP_CONNECT 3 [1, 2, 3] = neutralResult mgrEmpty := by
  exact claim_C9_short_payload_ignored mgrEmpty OP_TCP_CONNECT 3 [1, 2, 3]
    (Or.inl ⟨by decide, by decide⟩)

/-- Claim C5 counterexample: when the read loop ends by a read error, the
single TCP_CLOSE emitted still carries reason byte 0 (payload index 4) and
errno 0, not the nonzero reason the claim requires for the error case. -/
theorem claim_C5_counterexample :
    tcp_read_loop 1 [ReadEvent.readError] =
      [⟨OP_TCP_CLOSE, 0, [1, 0, 0, 0, 0, 0, 0, 0, 0]⟩] ∧
    (∀ f ∈ tcp_read_loop 1 [ReadEvent.readError], f.payload.getD 4 255 = 0) := by
  exact ⟨rfl, by decide⟩

/-- Claim C5 (amended): when a TCP read loop ends — whether by EOF, by an
empty read, or by a read error — exactly one TCP_CLOSE frame is emitted for
the socket, always with request id 0, reason byte 0 and errno 0. -/
theorem claim_C5_amended (socketId : Nat) (events : List ReadEvent) :
    (tcp_read_loop socketId events).filter (fun f => f.op == OP_TCP_CLOSE) =
      [⟨OP_TCP_CLOSE, 0, le32 socketId ++ 0 :: le32 0⟩] := by
  induction events with
  | nil => simp [tcp_read_loop, tcp_close_frame]
  | cons e rest ih =>
    cases e with
    | chunk b =>
      by_cases hb : b.isEmpty
      · simp [tcp_read_loop, hb, tcp_close_frame]
      · simpa [tcp_read_loop, hb, tcp_recv_frame, OP_TCP_RECV, OP_TCP_CLOSE] using ih
    | readError => simp [tcp_read_loop, tcp_close_frame]

/-- Claim C4 counterexample: a session with a pending connect (id 5) and a
listener (id 7).  The cleanup block aborts the listener task but not the
pending-connect task, contradicting the claim that every task in
`pending_connects` is aborted on disconnect. -/
theorem claim_C4_counterexample :
    mgrPending.pending_connects = [5] ∧
    (disconnect_cleanup mgrPending).abortedPending = [] ∧
    5 ∉ (disconnect_cleanup mgrPending).abortedPending := by
  exact ⟨rfl, rfl, by decide⟩

/-- Claim C4 (amended): when the receive loop ends, the cleanup block aborts
every task registered in `tcp_servers`, aborts none of the tasks in
`pending_connects` (those run on until their own 30-second connect timeout),
and aborts the sender task last. -/
theorem claim_C4_amended (mgr : SocketManager) :
    (disconnect_cleanup mgr).abortedServers = mgr.tcp_servers ∧
    (disconnect_cleanup mgr).abortedPending = [] ∧
    (disconnect_cleanup mgr).senderAbortedLast = true := by
  exact ⟨rfl, rfl, rfl⟩

/-- A prefix of a list is still a prefix after appending on the right. -/
theorem isPrefixOf_append {pat xs : List Char} (ys : List Char)
    (h : pat.isPrefixOf xs = true) : pat.isPrefixOf (xs ++ ys) = true := by
  induction pat generalizing xs with
  | nil => simp [List.isPrefixOf]
  | cons p ps ih =>
    cases xs with
    | nil => simp [List.isPrefixOf] at h
    | cons x xs =>
      simp only [List.isPrefixOf, List.cons_append, Bool.and_eq_true] at h ⊢
      exact ⟨h.1, ih h.2⟩

/-- The empty pattern occurs in every list. -/
theorem containsSubstr_nil_pat (ys : List Char) : containsSubstr [] ys = true := by
  cases ys <;> simp [containsSubstr, List.isPrefixOf]

/-- Substring occurrence is preserved by appending on the right. -/
theorem containsSubstr_append_right (pat xs ys : List Char)
    (h : containsSubstr pat xs = true) : containsSubstr pat (xs ++ ys) = true := by
  induction xs with
  | nil =>
    simp only [containsSubstr] at h
    have hpat : pat = [] := by
      cases pat with
      | nil => rfl
      | cons p ps => simp [List.isPrefixOf] at h
    subst hpat
    simpa using containsSubstr_nil_pat ys
  | cons c cs ih =>
    simp only [containsSubstr, Bool.or_eq_true] at h
    rcases h with h | h
    · simp only [List.cons_append, containsSubstr, Bool.or_eq_true]
      exact Or.inl (isPrefixOf_append ys h)
    · simp only [List.cons_append, containsSubstr, Bool.or_eq_true]
      exact Or.inr (ih h)

/-- Substring occurrence is preserved by appending on the left. -/
theorem containsSubstr_append_left (pat xs ys : List Char)
    (h : containsSubstr pat ys = true) : containsSubstr pat (xs ++ ys) = true := by
  induction xs with
  | nil => simpa using h
  | cons c cs ih =>
    simp only [List.cons_append, containsSubstr, Bool.or_eq_true]
    exact Or.inr ih

/-- Any substring of a chunk produced by the separator split occurs in the
original character list. -/
theorem splitCharsAux_chunk_sub (pat : List Char) :
    ∀ (l acc chunk : List Char), chunk ∈ splitCharsAux l acc →
      containsSubstr pat chunk = true →
      containsSubstr pat (acc.reverse ++ l) = true := by
  intro l
  induction l with
  | nil =>
    intro acc chunk hmem hsub
    simp only [splitCharsAux, List.mem_singleton] at hmem
    subst hmem
    simpa using hsub
  | cons c rest ih =>
    intro acc chunk hmem hsub
    by_cases hc : isPathSep c = true
    · simp only [splitCharsAux, hc, if_true, List.mem_cons] at hmem
      rcases hmem with rfl | hmem2
      · exact containsSubstr_append_right pat acc.reverse (c :: rest) hsub
      · have h2 := ih [] chunk hmem2 hsub
        simp only [List.reverse_nil, List.nil_append] at h2
        have h3 := containsSubstr_append_left pat (acc.reverse ++ [c]) rest h2
        simpa [List.append_assoc] using h3
    · simp only [splitCharsAux, hc, if_false] at hmem
      have h2 := ih (c :: acc) chunk hmem hsub
      simpa [List.reverse_cons, List.append_assoc] using h2

/-- Every path with a `..` component also contains `..` as a substring, so
the check actually performed by `validate_path` rejects at least everything
the spec asks it to reject. -/
theorem hasDotDotComponent_containsDotDot (p : String)
    (h : hasDotDotComponent p = true) : containsDotDot p = true := by
  have hmem : (['.', '.'] : List Char) ∈ pathComponents p :=
    List.mem_of_elem_eq_true h
  have h2 := splitCharsAux_chunk_sub ['.', '.'] p.toList [] ['.', '.'] hmem (by decide)
  simpa [containsDotDot] using h2

/-- Claim C1 counterexample: the path `a..b` has no `..` component, yet
`validate_path` rejects it with 400, because the source performs a substring
test (`path.contains("..")`), not the component test the claim states; so
it is false that only paths containing `..` as a component are rejected. -/
theorem claim_C1_counterexample :
    hasDotDotComponent "a..b" = false ∧
    validate_path rootsSample "k" "a..b" = PathResult.err 400 "Invalid path" := by
  exact ⟨by decide, by decide⟩

/-- Claim C1 (amended): an unknown root key draws 403 regardless of the
path; with a known root, any path containing the two-character substring
`..` anywhere (even inside a single component) is rejected with 400, and a
path free of that substring resolves to the root path joined with the
cleaned path (backslashes normalized, leading slashes stripped).  In
particular every path with a `..` component is rejected. -/
theorem claim_C1_amended (roots : List DownloadRoot) (key p : String) :
    (roots.find? (fun r => r.key == key) = none →
      validate_path roots key p = PathResult.err 403 "Invalid root key") ∧
    (∀ root, roots.find? (fun r => r.key == key) = some root →
      (containsDotDot p = false →
        validate_path roots key p = PathResult.ok (pathJoin root.path (cleanedPath p))) ∧
      (containsDotDot p = true →
        validate_path roots key p = PathResult.err 400 "Invalid path") ∧
      (hasDotDotComponent p = true →
        validate_path roots key p = PathResult.err 400 "Invalid path")) := by
  refine ⟨?_, ?_⟩
  · intro hfind
    simp [validate_path, hfind]
  · intro root hfind
    refine ⟨?_, ?_, ?_⟩
    · intro hdd
      simp [validate_path, hfind, hdd]
    · intro hdd
      simp [validate_path, hfind, hdd]
    · intro hcomp
      have hdd := hasDotDotComponent_containsDotDot p hcomp
      simp [validate_path, hfind, hdd]

/-- Claim C1 witness: the three amended outcomes at concrete inputs against
the one-root table `rootsSample`. -/
theorem claim_C1_witness :
    validate_path rootsSample "nope" "x" = PathResult.err 403 "Invalid root key" ∧
    validate_path rootsSample "k" "sub\\dir/file.bin" =
      PathResult.ok (pathJoin "/dl" (cleanedPath "sub\\dir/file.bin")) ∧
    validate_path rootsSample "k" "../secret" = PathResult.err 400 "Invalid path" := by
  refine ⟨?_, ?_, ?_⟩
  · exact (claim_C1_amended rootsSample "nope" "x").1 (by decide)
  · exact ((claim_C1_amended rootsSample "k" "sub\\dir/file.bin").2
      ⟨"k", "/dl", "Downloads", false, true, 0⟩ (by decide)).1 (by decide)
  · exact ((claim_C1_amended rootsSample "k" "../secret").2
      ⟨"k", "/dl", "Downloads", false, true, 0⟩ (by decide)).2.2 (by decide)

/-- Reading back the written range of `overwrite_range` returns the body. -/
theorem overwrite_range_reads_back (file : List Nat) (offset : Nat) (body : List Nat) :
    ((overwrite_range file offset body).drop offset).take body.length = body := by
  simp only [overwrite_range]
  have hlen : ((file ++ List.replicate (offset - file.length) 0).take offset).length
      = offset := by
    simp only [List.length_take, List.length_append, List.length_replicate]
    omega
  rw [List.drop_left' hlen]
  rw [show body.length = (body : List Nat).length from rfl, List.take_left]

/-- Claim C3: for `POST /write` with expected-SHA1 header `expected`, the
answer is 200 exactly when `expected` equals the lowercase hex SHA-1 of the
body (the `sha1hex` parameter abstracts that digest); in BOTH cases —
including the 409 mismatch — the file bytes at `[offset, offset + |body|)`
equal the body, because the write happens before the verification. -/
theorem claim_C3_write_precedes_verification (sha1hex : List Nat → String)
    (file : List Nat) (offset : Nat) (body : List Nat) (expected : String) :
    ((write_file_v2 sha1hex file offset body (some expected)).1 =
      if sha1hex body = expected then 200 else 409) ∧
    (write_file_v2 sha1hex file offset body (some expected)).2 =
      overwrite_range file offset body ∧
    (((write_file_v2 sha1hex file offset body (some expected)).2.drop offset).take
      body.length = body) := by
  have h2 : (write_file_v2 sha1hex file offset body (some expected)).2 =
      overwrite_range file offset body := by
    by_cases hh : sha1hex body = expected
    · simp [write_file_v2, hh]
    · simp [write_file_v2, hh]
  refine ⟨?_, h2, ?_⟩
  · by_cases hh : sha1hex body = expected
    · simp [write_file_v2, hh]
    · simp [write_file_v2, hh]
  · rw [h2]
    exact overwrite_range_reads_back file offset body

/-- The streaming hash loop consumes exactly `remaining` bytes (capped at
EOF): its output is `file.take remaining`, however the 8 KiB chunking
falls. -/
theorem hash_read_loop_take_aux :
    ∀ (n : Nat) (file : List Nat) (remaining : Nat), file.length ≤ n →
      hash_read_loop file remaining = file.take remaining := by
  intro n
  induction n with
  | zero =>
    intro file remaining hle
    have hf : file = [] := List.eq_nil_of_length_eq_zero (Nat.le_zero.mp hle)
    subst hf
    rw [hash_read_loop]
    by_cases h0 : remaining = 0 <;> simp [h0]
  | succ n ih =>
    intro file remaining hle
    rw [hash_read_loop]
    by_cases h0 : remaining = 0
    · simp [h0]
    · by_cases hmin : min (min 8192 remaining) file.length = 0
      · have hfl : file.length = 0 := by omega
        have hf : file = [] := List.eq_nil_of_length_eq_zero hfl
        subst hf
        simp [h0, hmin]
      · simp only [if_neg h0, if_neg hmin]
        rw [ih (file.drop (min (min 8192 remaining) file.length))
          (remaining - min (min 8192 remaining) file.length)
          (by simp only [List.length_drop]; omega)]
        conv_rhs => rw [show remaining =
          min (min 8192 remaining) file.length +
            (remaining - min (min 8192 remaining) file.length) from by omega]
        rw [List.take_add]

/-- Closed form of the hash read loop. -/
theorem hash_read_loop_take (file : List Nat) (remaining : Nat) :
    hash_read_loop file remaining = file.take remaining :=
  hash_read_loop_take_aux file.length file remaining (Nat.le_refl _)

/-- Taking a list up to its own length is the identity inside `take`. -/
theorem take_min_length (l : List Nat) (n : Nat) :
    l.take (min n l.length) = l.take n := by
  rcases Nat.le_total n l.length with h | h
  · rw [Nat.min_eq_left h]
  · rw [Nat.min_eq_right h, List.take_of_length_le h,
      List.take_of_length_le (Nat.le_refl _)]

/-- Claim C8: the file-hash endpoints digest exactly the bytes from the
offset covering `min(length, bytes to EOF)` bytes when a length is given
(the read loop stops at whichever of the two comes first), and all bytes to
EOF when it is absent (the `u64::MAX` sentinel; the hypothesis says the
range fits in a u64, which every real file does).  The digest parameters
abstract the external SHA-1 / SHA-256 crates plus `hex::encode`. -/
theorem claim_C8_hash_range (sha1hexDigest sha256hexDigest : List Nat → String)
    (file : List Nat) (offset L : Nat)
    (hfin : file.length - offset ≤ u64MAX) :
    hash_sha1_file sha1hexDigest file (some offset) (some L) =
      sha1hexDigest ((file.drop offset).take (min L (file.length - offset))) ∧
    hash_sha1_file sha1hexDigest file (some offset) none =
      sha1hexDigest (file.drop offset) ∧
    hash_sha256_file sha256hexDigest file (some offset) (some L) =
      sha256hexDigest ((file.drop offset).take (min L (file.length - offset))) ∧
    hash_sha256_file sha256hexDigest file (some offset) none =
      sha256hexDigest (file.drop offset) := by
  have hdrop : (file.drop offset).length = file.length - offset := by
    simp [List.length_drop]
  have hsome : hash_read_loop (file.drop offset) L =
      (file.drop offset).take (min L (file.length - offset)) := by
    rw [hash_read_loop_take, ← hdrop]
    exact (take_min_length (file.drop offset) L).symm
  have hnone : hash_read_loop (file.drop offset) u64MAX = file.drop offset := by
    rw [hash_read_loop_take]
    exact List.take_of_length_le (by rw [hdrop]; exact hfin)
  exact ⟨by simp [hash_sha1_file, hsome], by simp [hash_sha1_file, hnone],
    by simp [hash_sha256_file, hsome], by simp [hash_sha256_file, hnone]⟩

/-- Claim C8 witness: a four-byte file hashed from offset 1 with length 2,
under a digest stub. -/
theorem claim_C8_witness :
    hash_sha1_file (fun l => toString l) [10, 11, 12, 13] (some 1) (some 2) =
      (fun l => toString l)
        (([10, 11, 12, 13].drop 1).take (min 2 ([10, 11, 12, 13].length - 1))) :=
  (claim_C8_hash_range (fun l => toString l) (fun l => toString l)
    [10, 11, 12, 13] 1 2 (by decide)).1

/-- Claim C7 counterexample: a refresh that succeeds (200) against a profile
carrying extension id `new-ext` swaps in the download roots of the profile but
leaves the stored extension id of the daemon at its old value: `refresh_handler`
never writes `extension_id`, contradicting the claim that both are
replaced. -/
theorem claim_C7_counterexample :
    (refresh_handler diskSample stSample).1 = 200 ∧
    (refresh_handler diskSample stSample).2.download_roots = [rootNew] ∧
    profSample.extension_id = some "new-ext" ∧
    (refresh_handler diskSample stSample).2.extension_id = some "old-ext" ∧
    (refresh_handler diskSample stSample).2.extension_id ≠ profSample.extension_id := by
  refine ⟨rfl, rfl, rfl, rfl, by decide⟩

/-- Claim C7 (amended): every successful `POST /api/read-rpc-info-from-disk`
re-reads the discovery file, selects the (first) profile whose install id
equals that of the daemon, and replaces the download_roots table with the
roots of that profile under the write lock; the stored extension id — like every
other state field — is left unchanged. -/
theorem claim_C7_amended (disk : Option UnifiedRpcInfo) (st : AppStateModel)
    (info : UnifiedRpcInfo) (prof : ProfileEntry)
    (hdisk : disk = some info)
    (hfind : info.profiles.find? (fun q => q.install_id == some st.install_id) =
      some prof) :
    refresh_handler disk st = (200, { st with download_roots := prof.download_roots }) ∧
    (refresh_handler disk st).2.extension_id = st.extension_id ∧
    (refresh_handler disk st).2.install_id = st.install_id ∧
    (refresh_handler disk st).2.token = st.token := by
  subst hdisk
  have hmain : refresh_handler (some info) st =
      (200, { st with download_roots := prof.download_roots }) := by
    simp [refresh_handler, load_config, hfind]
  exact ⟨hmain, by rw [hmain], by rw [hmain], by rw [hmain]⟩

/-- Claim C7 witness: the amended behavior at the concrete fixture disk
state. -/
theorem claim_C7_witness :
    refresh_handler diskSample ⟨"t2", "iid", none, []⟩ =
      (200, { (⟨"t2", "iid", none, []⟩ : AppStateModel) with
                download_roots := profSample.download_roots }) :=
  (claim_C7_amended diskSample ⟨"t2", "iid", none, []⟩ ⟨2, [profSample]⟩ profSample
    rfl (by decide)).1

end JSTorrent
